import Mathlib

/-!
Verification of the Odin backup system's Idempotency & Audit Engine.

This file gives a shallow embedding, in Lean 4, of the core subsystem of the
odin-backup-system repository: the cheap-signature scheme (`quick_scan_signature`,
`digest`), the persisted decision state (`ManifestState`, `decide_job_state`),
the audit trail (`Tracker.start_run`, `Tracker.finish_run`, `Tracker.record_step`,
the `run_once` guard), the atomic publish discipline (`atomic_write_text`), and
the orchestration of the manifest job (`odin_run_manifest_job`).  Python values
are embedded as follows: `str` as `String`, `Optional[str]` as `Option String`,
`dict` objects read from JSON as association lists, machine-independent Python
integers as `Nat`, and filesystem / database effects as explicit state passing.
Each definition is translated from the corresponding Python source function.
-/

/-! ## Python value helpers

Python equality on `Optional[str]`: `None == None` is `True`,
`None == s` is `False`, and two strings compare by value. -/

/-- Python `==` on two `Optional[str]` values. -/
def pyEqOptStr : Option String → Option String → Bool
  | none, none => true
  | some a, some b => a == b
  | _, _ => false

/-- Python truthiness of an `Optional[str]`: `None` and `""` are falsy. -/
def pyTruthyStr : Option String → Bool
  | none => false
  | some s => !(s == "")

/-- Python `a or b` on `Optional[str]` values: yields `a` when `a` is truthy,
otherwise `b` (even when `b` is falsy). -/
def pyOrStr (a b : Option String) : Option String :=
  if pyTruthyStr a then a else b

/-- Lookup of a string-valued key in a JSON object embedded as an association
list, i.e. Python `obj.get(key)` (the documents written by this program have
no duplicate keys). -/
def dictGetStr (obj : List (String × String)) (key : String) : Option String :=
  match obj.find? (fun kv => kv.fst == key) with
  | some kv => some kv.snd
  | none => none

/-! ## Data model: `scripts/run_manifest_job2.py` -/

/-- Embedding of the `JobState` enum of `scripts/run_manifest_job2.py`. -/
inductive JobState where
  | STATE_EXPIRED
  | STATE_NOT_FOUND_SHOULD_UPDATE
  | STILL_CURRENT_SHOULD_SKIP
  | STATE_CHECK_FAILED_SHOULD_REBUILD
deriving DecidableEq, Repr

/-- Does a decision outcome lead to a rebuild?  In
`odin_run_manifest_job`, every outcome other than
`STILL_CURRENT_SHOULD_SKIP` falls through to `write_manifest_and_state`. -/
def JobState.isRebuild : JobState → Bool
  | .STILL_CURRENT_SHOULD_SKIP => false
  | _ => true

/-- Embedding of the `ManifestState` dataclass.  The fields are declared `str`
in the source, but `ManifestState.from_json_text` builds them with `dict.get`,
which can yield `None`; the honest runtime shape is therefore `Optional[str]`,
embedded as `Option String`. -/
structure ManifestState where
  init_signature_hash : Option String
  output_signature_hash : Option String
deriving DecidableEq, Repr

/-- Embedding of `ManifestState.from_json_text`: the JSON document (an
association list of its string-valued fields) is normalized into a
`ManifestState`, falling back from each current field name to its legacy
spelling with Python `or`. -/
def ManifestState.from_json_text (obj : List (String × String)) : ManifestState :=
  { init_signature_hash :=
      pyOrStr (dictGetStr obj "initial_signature_hash") (dictGetStr obj "init_sig_hex"),
    output_signature_hash :=
      pyOrStr (dictGetStr obj "output_signature_hash") (dictGetStr obj "output_sig_hex") }

/-- The fields of the `ManifestInfo` dataclass that `decide_job_state` reads:
whether the manifest artifact exists (`manifest_path.exists()`), the digest of
the current quick signature, and the content hash of the existing manifest
(`None` when the manifest file is absent). -/
structure ManifestInfo where
  manifest_exists : Bool
  initial_signature_hash : String
  current_manifest_sig : Option String
deriving DecidableEq, Repr

/-- Embedding of `decide_job_state` from `scripts/run_manifest_job2.py`.
The source first tests `not manifest_path.exists() or manifestState is None`
(returning `STATE_NOT_FOUND_SHOULD_UPDATE`); here the two disjuncts are split
into a `match` and an `if`, which short-circuit to the same outcome.  The
`except` branch of the source (returning `STATE_CHECK_FAILED_SHOULD_REBUILD`)
guards pure attribute reads and comparisons, which cannot fault in the
embedding. -/
def decide_job_state (manifestInfo : ManifestInfo) (manifestState : Option ManifestState) :
    JobState :=
  match manifestState with
  | none => JobState.STATE_NOT_FOUND_SHOULD_UPDATE
  | some st =>
    if manifestInfo.manifest_exists = false then
      JobState.STATE_NOT_FOUND_SHOULD_UPDATE
    else if pyEqOptStr st.init_signature_hash (some manifestInfo.initial_signature_hash) then
      let prev_out := st.output_signature_hash
      let cur_out := manifestInfo.current_manifest_sig
      if cur_out.isSome && pyEqOptStr prev_out cur_out then
        JobState.STILL_CURRENT_SHOULD_SKIP
      else
        JobState.STATE_EXPIRED
    else
      JobState.STATE_EXPIRED

example :
    decide_job_state ⟨false, "xyz", none⟩ (some ⟨some "abc", some "h"⟩) =
      JobState.STATE_NOT_FOUND_SHOULD_UPDATE := by decide

example :
    decide_job_state ⟨true, "xyz", some "h"⟩ (some ⟨some "abc", some "h"⟩) =
      JobState.STATE_EXPIRED := by decide

example :
    decide_job_state ⟨true, "s", some "h"⟩ (some ⟨some "s", some "h"⟩) =
      JobState.STILL_CURRENT_SHOULD_SKIP := by decide

/-! ## Audit trail: `backuplib/audit.py` and `backuplib/runonce.py` -/

/-- A row of the `runs` table of the audit database (the columns the claims
are about: primary key, name, status). -/
structure RunRow where
  run_id : String
  name : String
  status : String
deriving DecidableEq, Repr

/-- SQLite `INSERT OR REPLACE INTO runs`: a conflicting row (same primary key
`run_id`) is deleted and the new row inserted. -/
def insertOrReplaceRun (runs : List RunRow) (row : RunRow) : List RunRow :=
  runs.filter (fun r => !(r.run_id == row.run_id)) ++ [row]

/-- SQLite `UPDATE runs SET status=? WHERE run_id=?` (the projection of
`Tracker.finish_run`'s update onto the status column). -/
def updateRunStatus (runs : List RunRow) (run_id status : String) : List RunRow :=
  runs.map (fun r => if r.run_id == run_id then { r with status := status } else r)

/-- Lookup of a run row by primary key. -/
def findRun (runs : List RunRow) (run_id : String) : Option RunRow :=
  runs.find? (fun r => r.run_id == run_id)

/-- The error raised by the `run_once` guard in `backuplib/runonce.py` when a
guarded function is invoked a second time in the same process. -/
inductive AuditError where
  | alreadyCalled
deriving DecidableEq, Repr

/-- Process-wide audit state.  The `@run_once` decorators in
`backuplib/audit.py` sit on the class-level functions `Tracker.start_run` and
`Tracker.finish_run`, so each guard's `state` cell is shared by every
`Tracker` instance in the process; a `Tracker` instance itself carries only a
database path.  `dbs` maps each database path to its `runs` table. -/
structure AuditProcess where
  start_run_called : Bool
  finish_run_called : Bool
  dbs : List (String × List RunRow)
deriving DecidableEq, Repr

/-- The `runs` table of the database at `db_path` (empty when never touched). -/
def dbRuns (p : AuditProcess) (db_path : String) : List RunRow :=
  match p.dbs.find? (fun kv => kv.fst == db_path) with
  | some kv => kv.snd
  | none => []

/-- Overwrite the `runs` table of the database at `db_path`. -/
def setDbRuns (dbs : List (String × List RunRow)) (db_path : String) (runs : List RunRow) :
    List (String × List RunRow) :=
  (db_path, runs) :: dbs.filter (fun kv => !(kv.fst == db_path))

/-- Embedding of `Tracker.start_run` under its `@run_once` decorator: the
guard is checked first (raising `AlreadyCalledError` with the process state
and every database untouched); otherwise the row is written with
`INSERT OR REPLACE` and status `running`. -/
def Tracker.start_run (p : AuditProcess) (db_path run_id run_name : String) :
    Except AuditError AuditProcess :=
  if p.start_run_called then
    Except.error AuditError.alreadyCalled
  else
    Except.ok
      { p with
        start_run_called := true,
        dbs := setDbRuns p.dbs db_path
          (insertOrReplaceRun (dbRuns p db_path) ⟨run_id, run_name, "running"⟩) }

/-- Embedding of `Tracker.finish_run` under its `@run_once` decorator: the
guard is checked first (raising `AlreadyCalledError` with everything
untouched); otherwise the run row's status is updated in place. -/
def Tracker.finish_run (p : AuditProcess) (db_path run_id status : String) :
    Except AuditError AuditProcess :=
  if p.finish_run_called then
    Except.error AuditError.alreadyCalled
  else
    Except.ok
      { p with
        finish_run_called := true,
        dbs := setDbRuns p.dbs db_path (updateRunStatus (dbRuns p db_path) run_id status) }

/-- A row of the `steps` table of the audit database. -/
structure StepRow where
  id : Nat
  run_id : String
  name : String
  status : String
  message : String
deriving DecidableEq, Repr

/-- Embedding of the `StepRef` dataclass returned by `Tracker.start_step`. -/
structure StepRef where
  id : Nat
  run_id : String
  name : String
deriving DecidableEq, Repr

/-- Embedding of `Tracker.start_step`: inserts a step row with status
`running` and empty message, returning the new table and a `StepRef` carrying
the fresh autoincrement id. -/
def Tracker.start_step (steps : List StepRow) (run_id name : String) :
    List StepRow × StepRef :=
  let id := steps.length + 1
  (steps ++ [⟨id, run_id, name, "running", ""⟩], ⟨id, run_id, name⟩)

/-- Embedding of `Tracker.finish_step`: updates the status and message of the
row whose id matches the given `StepRef`. -/
def Tracker.finish_step (steps : List StepRow) (step : StepRef) (status message : String) :
    List StepRow :=
  steps.map (fun r => if r.id == step.id then { r with status := status, message := message } else r)

/-- Python `rec.get(key, default)` on the mutable record dict that a
`record_step` body fills in. -/
def pyDictGetD (rec : List (String × String)) (key dflt : String) : String :=
  match dictGetStr rec key with
  | some v => v
  | none => dflt

/-- How the body of a `with tracker.record_step(...)` block exits: either
normally, leaving the record dict `rec` with whatever slots it set, or by
raising an exception whose `str(...)` is `msg`. -/
inductive BodyOutcome where
  | normal (rec : List (String × String))
  | raised (msg : String)
deriving DecidableEq, Repr

/-- Embedding of the `Tracker.record_step` context manager: a step is started
(status `running`), the body runs, and `finish_step` is called on every exit
path — on normal exit with the status slot of `rec` (default `success`) and
its message slot (default empty), on an exception with status `failed` and the
error text, after which the exception is re-raised.  Returns the resulting
steps table and whether an exception was re-raised. -/
def Tracker.record_step (steps : List StepRow) (run_id name : String) (body : BodyOutcome) :
    List StepRow × Bool :=
  let started := Tracker.start_step steps run_id name
  match body with
  | BodyOutcome.normal rec =>
      (Tracker.finish_step started.fst started.snd
        (pyDictGetD rec "status" "success") (pyDictGetD rec "message" ""), false)
  | BodyOutcome.raised msg =>
      (Tracker.finish_step started.fst started.snd "failed" msg, true)

example :
    Tracker.record_step [] "r" "s" (BodyOutcome.raised "boom") =
      ([⟨1, "r", "s", "failed", "boom"⟩], true) := by decide

example :
    Tracker.record_step [] "r" "s" (BodyOutcome.normal [("status", "failed")]) =
      ([⟨1, "r", "s", "failed", ""⟩], false) := by decide

/-! ## Orchestration: `odin_run_manifest_job` in `scripts/run_manifest_job2.py`

The job entry point is embedded as a pure function from a `JobWorld` — the
relevant filesystem facts at invocation time plus oracles saying which
fallible operations succeed — to a `JobOutcome`: the decision taken, the
ordered trace of audit-tracker calls made, and the filesystem facts after the
invocation.  The embedding starts after `tracker.start_run` has succeeded
(`load_config`, `Tracker()` and `start_run` precede everything else in the
source; a failure before or inside `start_run` is outside the traced run). -/

/-- One audit-tracker call, in the order the job makes them. -/
inductive AuditEvent where
  | startRun (run_name : String)
  | finishRun (status : String)
  | startStep (name : String)
  | finishStep (name status message : String)
deriving DecidableEq, Repr

/-- The world an invocation of the manifest job runs against. `state_file` is
the parse result of the state file (`none`: absent or unparsable — the two
cases `load_state_if_any` maps to `None`); `manifest_hash` is the content hash
of the manifest artifact (`none` when absent); `input_sig_hash` is the digest
of the quick scan of the repository; the `_ok` oracles say whether
`perform_initial_job_setup`, the manifest-generation step and the state-write
step complete without raising; `new_manifest_hash` is the content hash a
freshly generated manifest would have; the `_error` fields are the `str(...)`
of the exceptions the failing steps would raise. -/
structure JobWorld where
  state_file : Option ManifestState
  manifest_hash : Option String
  input_sig_hash : String
  setup_ok : Bool
  gen_ok : Bool
  state_write_ok : Bool
  new_manifest_hash : String
  gen_error : String
  state_error : String
deriving DecidableEq, Repr

/-- What one invocation of the job did: the decision reached (`none` when
setup raised before deciding), the ordered audit-call trace, and the manifest
hash and state file afterwards. -/
structure JobOutcome where
  decision : Option JobState
  trace : List AuditEvent
  manifest_hash : Option String
  state_file : Option ManifestState
deriving DecidableEq, Repr

/-- Step name of the manifest-generation step. -/
def stepGenName : String := "generating odin manifest"

/-- Step name of the state-write step. -/
def stepStateName : String := "writing manifest state"

/-- Embedding of `write_manifest_and_state`: step 1 generates the manifest to
a temp path and atomically replaces the artifact (on failure: the step record
is marked failed, `finish_run("failed")` is called, then the exception
re-raises through `record_step`, which finishes the step as failed before
propagating); step 2 hashes the new artifact and atomically writes the state
file (same failure discipline), and on success calls `finish_run("success")`
inside the step before the step is finished.  Returns the audit events in
call order, then the manifest hash and state file afterwards. -/
def write_manifest_and_state (w : JobWorld) :
    List AuditEvent × Option String × Option ManifestState :=
  if w.gen_ok = false then
    ([AuditEvent.startStep stepGenName,
      AuditEvent.finishRun "failed",
      AuditEvent.finishStep stepGenName "failed" w.gen_error],
     w.manifest_hash, w.state_file)
  else if w.state_write_ok = false then
    ([AuditEvent.startStep stepGenName,
      AuditEvent.finishStep stepGenName "success" "",
      AuditEvent.startStep stepStateName,
      AuditEvent.finishRun "failed",
      AuditEvent.finishStep stepStateName "failed" w.state_error],
     some w.new_manifest_hash, w.state_file)
  else
    ([AuditEvent.startStep stepGenName,
      AuditEvent.finishStep stepGenName "success" "",
      AuditEvent.startStep stepStateName,
      AuditEvent.finishRun "success",
      AuditEvent.finishStep stepStateName "success" ""],
     some w.new_manifest_hash,
     some ⟨some w.input_sig_hash, some w.new_manifest_hash⟩)

/-- Embedding of `odin_run_manifest_job` from `tracker.start_run` onward: on a
setup failure the top-level `except` only logs, so the trace ends after
`start_run`; on `STILL_CURRENT_SHOULD_SKIP` the run is finished with status
`success` and the function returns without rebuild work; every other decision
falls through to `write_manifest_and_state`. -/
def odin_run_manifest_job (w : JobWorld) : JobOutcome :=
  let ev0 : List AuditEvent := [AuditEvent.startRun "generate_manifest"]
  if w.setup_ok = false then
    { decision := none, trace := ev0,
      manifest_hash := w.manifest_hash, state_file := w.state_file }
  else
    let mi : ManifestInfo := ⟨w.manifest_hash.isSome, w.input_sig_hash, w.manifest_hash⟩
    let decision := decide_job_state mi w.state_file
    if decision = JobState.STILL_CURRENT_SHOULD_SKIP then
      { decision := some decision,
        trace := ev0 ++ [AuditEvent.finishRun "success"],
        manifest_hash := w.manifest_hash, state_file := w.state_file }
    else
      let rebuilt := write_manifest_and_state w
      { decision := some decision,
        trace := ev0 ++ rebuilt.fst,
        manifest_hash := rebuilt.snd.fst, state_file := rebuilt.snd.snd }

/-- Does a trace contain a `finishRun` call (with any status)? -/
def hasFinishRun (trace : List AuditEvent) : Bool :=
  trace.any (fun e =>
    match e with
    | AuditEvent.finishRun _ => true
    | _ => false)

/-- Does a trace contain a `startStep` call (i.e. was any rebuild work begun)? -/
def hasStartStep (trace : List AuditEvent) : Bool :=
  trace.any (fun e =>
    match e with
    | AuditEvent.startStep _ => true
    | _ => false)

example :
    (odin_run_manifest_job
      ⟨none, none, "sig1", true, true, true, "h1", "", ""⟩).state_file =
      some ⟨some "sig1", some "h1"⟩ := by decide

example :
    (odin_run_manifest_job
      ⟨some ⟨some "sig1", some "h1"⟩, some "h1", "sig1", true, true, true, "h2", "", ""⟩).trace =
      [AuditEvent.startRun "generate_manifest", AuditEvent.finishRun "success"] := by decide

/-! ## Atomic writer: `atomic_write_text` in `backuplib/filesutil.py`

The operation is embedded as a function of the previous content at the target
path, the text to publish, and a failure oracle naming which step (if any)
raises.  It returns the chronological list of filesystem views observable
while it runs, the final view, and whether the call succeeded.  A view records
the complete content at the target path (`none` when absent) and the content
of the temporary `.part` file (`none` when absent); the partial content only
ever lives at the temporary path. -/

/-- Which step of `atomic_write_text` raises, if any: the
`path.parent.mkdir`, the `NamedTemporaryFile` creation, the `tmp.write`
(after `written` characters reached the temp file), the `flush`/`fsync`, or
the final `os.replace`. -/
inductive AwFail where
  | mkdirFail
  | createFail
  | writeFail (written : Nat)
  | fsyncFail
  | replaceFail
  | noFail
deriving DecidableEq, Repr

/-- One observable filesystem view during `atomic_write_text`: the content at
the target path and at the temporary path. -/
structure AwView where
  target : Option String
  temp : Option String
deriving DecidableEq, Repr

/-- Embedding of `atomic_write_text`: write the text to a fresh temporary
file (`NamedTemporaryFile` with `delete=False`) in the target's directory,
fsync it, then `os.replace` it onto the target (atomic: the target switches
in one step from the old complete content to the new complete content).  The
`except` block unlinks the temporary file only when `tmp_path is not None`,
and `tmp_path = Path(tmp.name)` is the last statement inside the `with`
block, after the `fsync` — so a failure in `tmp.write`, `tmp.flush` or
`os.fsync` skips the unlink and, the file having been opened with
`delete=False`, leaves the `.part` file (with whatever content reached it)
on disk; only a failure at `os.replace` itself triggers the cleanup.
Returns (observable views in order, final view, success). -/
def atomic_write_text (prev : Option String) (text : String) (f : AwFail) :
    List AwView × AwView × Bool :=
  let s0 : AwView := ⟨prev, none⟩
  let sEmpty : AwView := ⟨prev, some ""⟩
  let sFull : AwView := ⟨prev, some text⟩
  match f with
  | AwFail.mkdirFail => ([s0], s0, false)
  | AwFail.createFail => ([s0], s0, false)
  | AwFail.writeFail written =>
      ([s0, sEmpty, ⟨prev, some (text.take written)⟩],
       ⟨prev, some (text.take written)⟩, false)
  | AwFail.fsyncFail => ([s0, sEmpty, sFull], sFull, false)
  | AwFail.replaceFail => ([s0, sEmpty, sFull, s0], s0, false)
  | AwFail.noFail => ([s0, sEmpty, sFull, ⟨some text, none⟩], ⟨some text, none⟩, true)

example :
    (atomic_write_text (some "old") "new content" (AwFail.writeFail 3)).2.1 =
      ⟨some "old", some "new"⟩ := by decide

example :
    (atomic_write_text (some "old") "new content" AwFail.replaceFail).2.1 =
      ⟨some "old", none⟩ := by decide

/-! ## Fingerprint engine: `quick_scan_signature` in `backuplib/filesutil.py`

The tree walk of `os.walk` (with its default `onerror=None`, which silently
swallows a failed `scandir`) is embedded over a model filesystem tree.  The
`fnmatch.fnmatch` glob matching used by `is_excluded` is embedded from the
Python standard library semantics: `*` matches any run of characters
(including `/`), `?` one character, `[...]` a character class with ranges and
`!` negation, a `]` in first position inside a class is literal, and an
unclosed `[` is a literal character. -/

/-- One token of a glob pattern. -/
inductive GlobTok where
  | star
  | qmark
  | lit (c : Char)
  | cls (neg : Bool) (chars : List Char)
deriving DecidableEq, Repr

/-- Scan up to the closing `]` of a character class, returning the class
characters and the remainder, or `none` when the class is unclosed. -/
def splitAtRBracket : List Char → Option (List Char × List Char)
  | [] => none
  | ']' :: rest => some ([], rest)
  | c :: rest =>
    match splitAtRBracket rest with
    | some r => some (c :: r.fst, r.snd)
    | none => none

/-- Parse a character class from the characters following a `[`: an optional
leading `!` negates, a `]` in first content position is a literal member, and
the class runs to the next `]`; `none` when no closing `]` exists. -/
def tryClass (ps : List Char) : Option (Bool × List Char × List Char) :=
  let parsed : Bool × List Char :=
    match ps with
    | '!' :: rest => (true, rest)
    | _ => (false, ps)
  match parsed.snd with
  | ']' :: rest =>
    (match splitAtRBracket rest with
     | some r => some (parsed.fst, ']' :: r.fst, r.snd)
     | none => none)
  | other =>
    (match splitAtRBracket other with
     | some r => some (parsed.fst, r.fst, r.snd)
     | none => none)

/-- Tokenize a glob pattern; the fuel argument bounds the number of consumed
characters (callers pass the pattern length, which always suffices because
every step consumes at least one character). -/
def globTokensAux : Nat → List Char → List GlobTok
  | 0, _ => []
  | _ + 1, [] => []
  | fuel + 1, '*' :: rest => GlobTok.star :: globTokensAux fuel rest
  | fuel + 1, '?' :: rest => GlobTok.qmark :: globTokensAux fuel rest
  | fuel + 1, '[' :: rest =>
    (match tryClass rest with
     | some r => GlobTok.cls r.fst r.snd.fst :: globTokensAux fuel r.snd.snd
     | none => GlobTok.lit '[' :: globTokensAux fuel rest)
  | fuel + 1, c :: rest => GlobTok.lit c :: globTokensAux fuel rest

/-- Tokenize a glob pattern. -/
def globTokens (pat : List Char) : List GlobTok :=
  globTokensAux pat.length pat

/-- Does a character match a class body?  Interior `-` forms a range; a `-`
in first or last position is literal, as in a regular-expression class. -/
def classMatch : List Char → Char → Bool
  | a :: '-' :: b :: rest, c =>
    (a.toNat ≤ c.toNat && c.toNat ≤ b.toNat) || classMatch rest c
  | a :: rest, c => (a == c) || classMatch rest c
  | [], _ => false

/-- Match a tokenized glob pattern against a character list; `*` may consume
any run of characters, `/` included, exactly as `fnmatch.translate` compiles
`*` to `.*`.  The fuel argument (one more than the combined length of pattern
and string always suffices, since every recursive call shrinks that sum)
keeps the recursion structural, hence kernel-reducible. -/
def globMatchToksAux : Nat → List GlobTok → List Char → Bool
  | 0, _, _ => false
  | _ + 1, [], [] => true
  | _ + 1, [], _ :: _ => false
  | fuel + 1, GlobTok.star :: ps, [] => globMatchToksAux fuel ps []
  | fuel + 1, GlobTok.star :: ps, c :: cs =>
    globMatchToksAux fuel ps (c :: cs) || globMatchToksAux fuel (GlobTok.star :: ps) cs
  | fuel + 1, GlobTok.qmark :: ps, _ :: cs => globMatchToksAux fuel ps cs
  | _ + 1, GlobTok.qmark :: _, [] => false
  | fuel + 1, GlobTok.cls neg chars :: ps, c :: cs =>
    (classMatch chars c != neg) && globMatchToksAux fuel ps cs
  | _ + 1, GlobTok.cls _ _ :: _, [] => false
  | fuel + 1, GlobTok.lit p :: ps, c :: cs => (p == c) && globMatchToksAux fuel ps cs
  | _ + 1, GlobTok.lit _ :: _, [] => false

/-- Match a tokenized glob pattern against a character list. -/
def globMatchToks (toks : List GlobTok) (s : List Char) : Bool :=
  globMatchToksAux (toks.length + s.length + 1) toks s

/-- Embedding of `fnmatch.fnmatch(name, pattern)` on a POSIX platform (where
`os.path.normcase` is the identity). -/
def fnmatch (name pattern : String) : Bool :=
  globMatchToks (globTokens pattern.data) name.data

example : fnmatch "a/b/c.txt" "a/*" = true := by decide
example : fnmatch "a/b/c.txt" "*.txt" = true := by decide
example : fnmatch "a/b/c.txt" "*.md" = false := by decide
example : fnmatch "ab" "a[b-d]" = true := by decide
example : fnmatch "ae" "a[b-d]" = false := by decide
example : fnmatch "ae" "a[!b-d]" = true := by decide

/-- Embedding of `is_excluded` from `backuplib/filesutil.py`: the path (given
as its relative components, joined by `/` as `Path.as_posix` does) is excluded
when any pattern matches; an empty (falsy) pattern list excludes nothing. -/
def is_excluded (path : List String) (exclude_patterns : List String) : Bool :=
  if exclude_patterns.isEmpty then false
  else exclude_patterns.any (fun pattern => fnmatch (String.intercalate "/" path) pattern)

/-- A model filesystem node: a file carries whether `p.exists()` reports it
(false for a broken symlink or a path whose `stat` faults, which
`Path.exists` swallows), its byte size and its mtime in nanoseconds; a
directory carries whether `scandir` can list it and its named entries. -/
inductive FSNode where
  | file (accessible : Bool) (size mtime : Nat)
  | dir (readable : Bool) (entries : List (String × FSNode))

/-- The three aggregates `quick_scan_signature` accumulates. -/
structure QuickScanAgg where
  file_count : Nat
  latest_mtime_ns : Nat
  total_bytes : Nat
deriving DecidableEq, Repr

mutual

/-- The filename loop of `quick_scan_signature` over one directory's yielded
`filenames`: excluded files are skipped, files whose `exists()` is false are
skipped, and each remaining file bumps the count, the byte total, and (when
larger) the latest mtime. -/
def scanFiles (exclude : List String) (rel : List String) (agg : QuickScanAgg) :
    List (String × FSNode) → QuickScanAgg
  | [] => agg
  | (fn, FSNode.file ok size mtime) :: rest =>
    let agg2 :=
      if is_excluded (rel ++ [fn]) exclude then agg
      else if ok = false then agg
      else
        { file_count := agg.file_count + 1,
          total_bytes := agg.total_bytes + size,
          latest_mtime_ns :=
            if agg.latest_mtime_ns < mtime then mtime else agg.latest_mtime_ns }
    scanFiles exclude rel agg2 rest
  | (_, FSNode.dir _ _) :: rest => scanFiles exclude rel agg rest

/-- The descent of `os.walk` into one directory's subdirectories, after the
in-place pruning of excluded names from `dirnames`: an excluded subdirectory
is never visited, and an unreadable one is silently skipped (`os.walk` with
`onerror=None` swallows the failed `scandir`). -/
def scanDirs (exclude : List String) (rel : List String) (agg : QuickScanAgg) :
    List (String × FSNode) → QuickScanAgg
  | [] => agg
  | (dn, FSNode.dir readable entries) :: rest =>
    let agg2 :=
      if is_excluded (rel ++ [dn]) exclude then agg
      else if readable = false then agg
      else scanDirEntries exclude (rel ++ [dn]) agg entries
    scanDirs exclude rel agg2 rest
  | (_, FSNode.file _ _ _) :: rest => scanDirs exclude rel agg rest

/-- Processing of one readable directory in `os.walk` order: its files first
(the yielded triple), then the descent into each subdirectory. -/
def scanDirEntries (exclude : List String) (rel : List String) (agg : QuickScanAgg)
    (entries : List (String × FSNode)) : QuickScanAgg :=
  scanDirs exclude rel (scanFiles exclude rel agg entries) entries

end

/-- Embedding of the `QuickManifestSig` dataclass of `backuplib/filesutil.py`. -/
structure QuickManifestSig where
  root : String
  exclude : List String
  file_count : Nat
  latest_mtime_ns : Nat
  total_bytes : Nat
deriving DecidableEq, Repr

/-- Embedding of `quick_scan_signature`: walk the tree from `root`, skipping
excluded and inaccessible entries, and package the aggregates (initial values
0, 0, 0) together with the root name and the exclusion list.  When the root
itself is unreadable (or not a directory), `os.walk` yields nothing — its
default `onerror=None` swallows the error — so the zero aggregates are
returned rather than any exception being raised. -/
def quick_scan_signature (rootName : String) (root : FSNode) (exclude : List String) :
    QuickManifestSig :=
  let agg : QuickScanAgg :=
    match root with
    | FSNode.dir true entries => scanDirEntries exclude [] ⟨0, 0, 0⟩ entries
    | FSNode.dir false _ => ⟨0, 0, 0⟩
    | FSNode.file _ _ _ => ⟨0, 0, 0⟩
  { root := rootName, exclude := exclude, file_count := agg.file_count,
    latest_mtime_ns := agg.latest_mtime_ns, total_bytes := agg.total_bytes }

example :
    quick_scan_signature "repo"
      (FSNode.dir false [("a", FSNode.file true 10 5)]) [] =
      ⟨"repo", [], 0, 0, 0⟩ := by decide

/-! ## Hashing: `backuplib/checksumtools.py`

SHA-256 is implemented over `Nat` byte lists (all word arithmetic reduced
modulo 2^32), so that the digests the program compares are computed, not
axiomatized. -/

/-- 2^32, the modulus of SHA-256 word arithmetic. -/
def UINT32_MOD : Nat := 4294967296

/-- Addition modulo 2^32. -/
def add32 (a b : Nat) : Nat := (a + b) % UINT32_MOD

/-- Bitwise complement of a 32-bit word. -/
def not32 (a : Nat) : Nat := Nat.xor a 4294967295

/-- Right rotation of a 32-bit word by `n` places. -/
def rotr32 (n a : Nat) : Nat := (a >>> n) ||| ((a <<< (32 - n)) % UINT32_MOD)

/-- SHA-256 big sigma 0. -/
def bigSigma0 (x : Nat) : Nat := Nat.xor (Nat.xor (rotr32 2 x) (rotr32 13 x)) (rotr32 22 x)

/-- SHA-256 big sigma 1. -/
def bigSigma1 (x : Nat) : Nat := Nat.xor (Nat.xor (rotr32 6 x) (rotr32 11 x)) (rotr32 25 x)

/-- SHA-256 small sigma 0. -/
def smallSigma0 (x : Nat) : Nat := Nat.xor (Nat.xor (rotr32 7 x) (rotr32 18 x)) (x >>> 3)

/-- SHA-256 small sigma 1. -/
def smallSigma1 (x : Nat) : Nat := Nat.xor (Nat.xor (rotr32 17 x) (rotr32 19 x)) (x >>> 10)

/-- SHA-256 choose function. -/
def sha256Ch (e f g : Nat) : Nat := Nat.xor (Nat.land e f) (Nat.land (not32 e) g)

/-- SHA-256 majority function. -/
def sha256Maj (a b c : Nat) : Nat := Nat.xor (Nat.xor (Nat.land a b) (Nat.land a c)) (Nat.land b c)

/-- The 64 SHA-256 round constants. -/
def sha256K : List Nat :=
  [1116352408, 1899447441, 3049323471, 3921009573, 961987163, 1508970993,
   2453635748, 2870763221, 3624381080, 310598401, 607225278, 1426881987,
   1925078388, 2162078206, 2614888103, 3248222580, 3835390401, 4022224774,
   264347078, 604807628, 770255983, 1249150122, 1555081692, 1996064986,
   2554220882, 2821834349, 2952996808, 3210313671, 3336571891, 3584528711,
   113926993, 338241895, 666307205, 773529912, 1294757372, 1396182291,
   1695183700, 1986661051, 2177026350, 2456956037, 2730485921, 2820302411,
   3259730800, 3345764771, 3516065817, 3600352804, 4094571909, 275423344,
   430227734, 506948616, 659060556, 883997877, 958139571, 1322822218,
   1537002063, 1747873779, 1955562222, 2024104815, 2227730452, 2361852424,
   2428436474, 2756734187, 3204031479, 3329325298]

/-- The eight-word working state of SHA-256 compression. -/
structure Sha256State where
  a : Nat
  b : Nat
  c : Nat
  d : Nat
  e : Nat
  f : Nat
  g : Nat
  h : Nat
deriving DecidableEq, Repr

/-- The SHA-256 initial hash value. -/
def sha256Init : Sha256State :=
  ⟨1779033703, 3144134277, 1013904242, 2773480762, 1359893119, 2600822924, 528734635, 1541459225⟩

/-- One SHA-256 compression round. -/
def sha256Round (st : Sha256State) (k w : Nat) : Sha256State :=
  let t1 := (st.h + bigSigma1 st.e + sha256Ch st.e st.f st.g + k + w) % UINT32_MOD
  let t2 := (bigSigma0 st.a + sha256Maj st.a st.b st.c) % UINT32_MOD
  ⟨(t1 + t2) % UINT32_MOD, st.a, st.b, st.c, (st.d + t1) % UINT32_MOD, st.e, st.f, st.g⟩

/-- Run the 64 compression rounds over the round constants and the message
schedule. -/
def sha256Rounds : List Nat → List Nat → Sha256State → Sha256State
  | k :: ks, w :: ws, st => sha256Rounds ks ws (sha256Round st k w)
  | _, _, st => st

/-- Big-endian decoding of the 64 bytes of a block into 16 words. -/
def bytesToWords : List Nat → List Nat
  | b0 :: b1 :: b2 :: b3 :: rest =>
    (b0 * 16777216 + b1 * 65536 + b2 * 256 + b3) :: bytesToWords rest
  | _ => []

/-- Extend a message schedule by one word from the last sixteen. -/
def scheduleStep (w : List Nat) : List Nat :=
  w ++ [(smallSigma1 (w.getD (w.length - 2) 0) + w.getD (w.length - 7) 0 +
         smallSigma0 (w.getD (w.length - 15) 0) + w.getD (w.length - 16) 0) % UINT32_MOD]

/-- Apply `scheduleStep` the given number of times (48, to grow 16 words to
64). -/
def scheduleRounds : Nat → List Nat → List Nat
  | 0, w => w
  | k + 1, w => scheduleRounds k (scheduleStep w)

/-- Process one 64-byte block. -/
def sha256Block (st : Sha256State) (block : List Nat) : Sha256State :=
  let w := scheduleRounds 48 (bytesToWords block)
  let r := sha256Rounds sha256K w st
  ⟨add32 st.a r.a, add32 st.b r.b, add32 st.c r.c, add32 st.d r.d,
   add32 st.e r.e, add32 st.f r.f, add32 st.g r.g, add32 st.h r.h⟩

/-- Split a byte list into 64-byte chunks; the fuel (the list length
suffices) keeps the recursion structural. -/
def chunksOf64Aux : Nat → List Nat → List (List Nat)
  | 0, _ => []
  | _ + 1, [] => []
  | fuel + 1, c :: rest => ((c :: rest).take 64) :: chunksOf64Aux fuel ((c :: rest).drop 64)

/-- Split a byte list into 64-byte chunks. -/
def chunksOf64 (l : List Nat) : List (List Nat) := chunksOf64Aux l.length l

/-- The 8-byte big-endian encoding of a (bit-)length. -/
def be64 (n : Nat) : List Nat :=
  [(n >>> 56) % 256, (n >>> 48) % 256, (n >>> 40) % 256, (n >>> 32) % 256,
   (n >>> 24) % 256, (n >>> 16) % 256, (n >>> 8) % 256, n % 256]

/-- SHA-256 padding: a `0x80` byte, zeros to 56 mod 64, then the bit length. -/
def sha256Pad (msg : List Nat) : List Nat :=
  let r := (msg.length + 1) % 64
  msg ++ 0x80 :: List.replicate ((120 - r) % 64) 0 ++ be64 (8 * msg.length)

/-- Fold the blocks of a padded message through the compression function. -/
def sha256Fold : List (List Nat) → Sha256State → Sha256State
  | [], st => st
  | blo :: rest, st => sha256Fold rest (sha256Block st blo)

/-- The final SHA-256 state of a byte message. -/
def sha256Final (msg : List Nat) : Sha256State :=
  sha256Fold (chunksOf64 (sha256Pad msg)) sha256Init

/-- A lowercase hex digit. -/
def hexDigit (n : Nat) : Char :=
  if n < 10 then Char.ofNat (48 + n) else Char.ofNat (87 + n)

/-- The eight lowercase hex digits of a 32-bit word. -/
def word32Hex (w : Nat) : List Char :=
  [hexDigit ((w >>> 28) % 16), hexDigit ((w >>> 24) % 16), hexDigit ((w >>> 20) % 16),
   hexDigit ((w >>> 16) % 16), hexDigit ((w >>> 12) % 16), hexDigit ((w >>> 8) % 16),
   hexDigit ((w >>> 4) % 16), hexDigit (w % 16)]

/-- Embedding of `hashlib.sha256(data).hexdigest()` over a byte list. -/
def sha256HexOfBytes (msg : List Nat) : String :=
  let st := sha256Final msg
  String.mk (word32Hex st.a ++ word32Hex st.b ++ word32Hex st.c ++ word32Hex st.d ++
             word32Hex st.e ++ word32Hex st.f ++ word32Hex st.g ++ word32Hex st.h)

/-- UTF-8 encoding of one code point. -/
def utf8EncodeChar (c : Char) : List Nat :=
  let n := c.toNat
  if n < 0x80 then [n]
  else if n < 0x800 then [0xC0 ||| (n >>> 6), 0x80 ||| (Nat.land n 0x3F)]
  else if n < 0x10000 then
    [0xE0 ||| (n >>> 12), 0x80 ||| (Nat.land (n >>> 6) 0x3F), 0x80 ||| (Nat.land n 0x3F)]
  else
    [0xF0 ||| (n >>> 18), 0x80 ||| (Nat.land (n >>> 12) 0x3F),
     0x80 ||| (Nat.land (n >>> 6) 0x3F), 0x80 ||| (Nat.land n 0x3F)]

/-- UTF-8 encoding of a string, i.e. Python `s.encode("utf-8")`. -/
def utf8Encode (s : String) : List Nat := (s.data.map utf8EncodeChar).flatten

/-- Embedding of `sha256_string` from `backuplib/checksumtools.py`. -/
def sha256_string (s : String) : String := sha256HexOfBytes (utf8Encode s)

/-- Embedding of `hash_quick_manifest_scan` from `backuplib/filesutil.py`: the
f-string is spread over backslash-continued source lines, so the literal
includes the 8 and 12 spaces of indentation between the three inner digests. -/
def hash_quick_manifest_scan (q : QuickManifestSig) : String :=
  sha256_string
    (sha256_string (Nat.repr q.file_count) ++ "        " ++
     sha256_string (Nat.repr q.latest_mtime_ns) ++ "            " ++
     sha256_string (Nat.repr q.total_bytes))

example :
    sha256_string "abc" =
      "ba7816bf8f01cfea414140de5dae2223b00361a396177a9cb410ff61f20015ad" := by decide

/-! ## Canonical JSON: `json.dumps(obj, sort_keys=True, separators=(",", ":"))`

The documents this program hashes through `digest` are flat dictionaries
whose values are strings, integers, or lists of strings (`asdict` of a
`QuickManifestSig`), so the encoder is defined over exactly that value
shape. -/

/-- A value of a flat JSON document hashed by this program. -/
inductive PyFlat where
  | str (s : String)
  | num (n : Nat)
  | strList (xs : List String)
deriving DecidableEq, Repr

/-- The four hex digits of a 16-bit scalar. -/
def hex4 (n : Nat) : List Char :=
  [hexDigit ((n >>> 12) % 16), hexDigit ((n >>> 8) % 16),
   hexDigit ((n >>> 4) % 16), hexDigit (n % 16)]

/-- The `\uXXXX` escape of a code point, as a surrogate pair above the basic
multilingual plane, as `json.dumps` emits with its default
`ensure_ascii=True`. -/
def jsonUnicodeEscape (n : Nat) : List Char :=
  if n < 0x10000 then '\\' :: 'u' :: hex4 n
  else
    ('\\' :: 'u' :: hex4 (0xD800 + ((n - 0x10000) >>> 10))) ++
    ('\\' :: 'u' :: hex4 (0xDC00 + (Nat.land (n - 0x10000) 0x3FF)))

/-- One character of a JSON string literal as `json.dumps` emits it: the two
metacharacters and the short control escapes backslashed, other control
characters and (under `ensure_ascii=True`) all non-ASCII characters as
`\uXXXX`. -/
def jsonEscapeChar (c : Char) : List Char :=
  if c = '"' then ['\\', '"']
  else if c = '\\' then ['\\', '\\']
  else if c.toNat = 8 then ['\\', 'b']
  else if c.toNat = 9 then ['\\', 't']
  else if c.toNat = 10 then ['\\', 'n']
  else if c.toNat = 12 then ['\\', 'f']
  else if c.toNat = 13 then ['\\', 'r']
  else if c.toNat < 0x20 then jsonUnicodeEscape c.toNat
  else if c.toNat < 0x7F then [c]
  else jsonUnicodeEscape c.toNat

/-- A JSON string literal, quotes included. -/
def jsonDumpString (s : String) : List Char :=
  '"' :: (s.data.map jsonEscapeChar).flatten ++ ['"']

/-- Join pieces with the `,` item separator of `separators=(",", ":")`. -/
def joinComma : List (List Char) → List Char
  | [] => []
  | [x] => x
  | x :: y :: rest => x ++ ',' :: joinComma (y :: rest)

/-- Code-point lexicographic order on character lists, the order `sorted`
puts Python strings in. -/
def ltCharList : List Char → List Char → Bool
  | [], [] => false
  | [], _ :: _ => true
  | _ :: _, [] => false
  | a :: as2, b :: bs =>
    if a.toNat < b.toNat then true
    else if b.toNat < a.toNat then false
    else ltCharList as2 bs

/-- Python `a < b` on strings. -/
def pyStrLt (a b : String) : Bool := ltCharList a.data b.data

/-- Insert a key/value pair into a key-sorted list. -/
def insertSortedKey (kv : String × PyFlat) :
    List (String × PyFlat) → List (String × PyFlat)
  | [] => [kv]
  | kv2 :: rest =>
    if pyStrLt kv2.fst kv.fst then kv2 :: insertSortedKey kv rest
    else kv :: kv2 :: rest

/-- Sort a flat document by key, as `sort_keys=True` does. -/
def sortByKey : List (String × PyFlat) → List (String × PyFlat)
  | [] => []
  | kv :: rest => insertSortedKey kv (sortByKey rest)

/-- Encode one flat value. -/
def dumpsFlat : PyFlat → List Char
  | PyFlat.str s => jsonDumpString s
  | PyFlat.num n => (Nat.repr n).data
  | PyFlat.strList xs => '[' :: joinComma (xs.map jsonDumpString) ++ [']']

/-- Embedding of `json.dumps(obj, sort_keys=True, separators=(",", ":"))` on
a flat document: keys sorted, no whitespace. -/
def dumpsCanonical (kvs : List (String × PyFlat)) : String :=
  String.mk
    (Char.ofNat 123 ::
      joinComma ((sortByKey kvs).map
        (fun kv => jsonDumpString kv.fst ++ ':' :: dumpsFlat kv.snd)) ++
      [Char.ofNat 125])

/-- Embedding of `digest` from `backuplib/checksumtools.py` (identical twin
in `backuplib/filesutil.py`): SHA-256 over the canonical JSON encoding. -/
def digest (obj : List (String × PyFlat)) : String :=
  sha256HexOfBytes (utf8Encode (dumpsCanonical obj))

/-- Embedding of `dataclasses.asdict` on a `QuickManifestSig`. -/
def asdictQuickManifestSig (q : QuickManifestSig) : List (String × PyFlat) :=
  [("root", PyFlat.str q.root),
   ("exclude", PyFlat.strList q.exclude),
   ("file_count", PyFlat.num q.file_count),
   ("latest_mtime_ns", PyFlat.num q.latest_mtime_ns),
   ("total_bytes", PyFlat.num q.total_bytes)]

/-- The input-signature hash `perform_initial_job_setup` computes in
`scripts/run_manifest_job2.py`: `digest(asdict(qsig))`. -/
def initial_signature_hash_of (q : QuickManifestSig) : String :=
  digest (asdictQuickManifestSig q)

/-- The quick-signature hash as the specification describes it: SHA-256 over
the canonical JSON encoding of exactly the three aggregated structural facts.
This definition follows the words of the spec, for comparison against
`initial_signature_hash_of`, which follows the source. -/
def spec_quick_signature_hash (q : QuickManifestSig) : String :=
  digest
    [("file_count", PyFlat.num q.file_count),
     ("latest_mtime_ns", PyFlat.num q.latest_mtime_ns),
     ("total_bytes", PyFlat.num q.total_bytes)]

/-! ## Claim theorems -/

/-- Claim C1, counterexample: with a successfully read prior state whose
input-signature hash (`abc`) differs from the current one (`xyz`) but with
the output artifact missing, `decide_job_state` returns
`STATE_NOT_FOUND_SHOULD_UPDATE` — not the input-changed outcome
`STATE_EXPIRED` — because the artifact-existence test runs before the
input-signature comparison; the claimed independence from artifact existence
fails. -/
theorem decide_input_changed_ignores_artifact_counterexample :
    decide_job_state ⟨false, "xyz", none⟩ (some ⟨some "abc", some "h"⟩) =
      JobState.STATE_NOT_FOUND_SHOULD_UPDATE ∧
    JobState.STATE_NOT_FOUND_SHOULD_UPDATE ≠ JobState.STATE_EXPIRED := by
  decide

/-- Claim C1, amended: when a prior state record was read successfully and
its input-signature hash differs from the current one, the decision is always
a rebuild outcome; it is the input-changed outcome `STATE_EXPIRED` —
independent of the output-hash comparison — provided the output artifact
exists, while a missing artifact short-circuits to
`STATE_NOT_FOUND_SHOULD_UPDATE` first. -/
theorem decide_input_changed_rebuilds (mi : ManifestInfo) (st : ManifestState)
    (hne : pyEqOptStr st.init_signature_hash (some mi.initial_signature_hash) = false) :
    (decide_job_state mi (some st)).isRebuild = true ∧
    (mi.manifest_exists = true →
      decide_job_state mi (some st) = JobState.STATE_EXPIRED) := by
  cases hex : mi.manifest_exists <;>
    simp [decide_job_state, hex, hne, JobState.isRebuild]

/-- Witness for `decide_input_changed_rebuilds` at a concrete input: prior
input hash `abc`, current `xyz`, artifact present with a matching output
hash. -/
theorem decide_input_changed_rebuilds_witness :
    (decide_job_state ⟨true, "xyz", some "h"⟩ (some ⟨some "abc", some "h"⟩)).isRebuild = true ∧
    ((⟨true, "xyz", some "h"⟩ : ManifestInfo).manifest_exists = true →
      decide_job_state ⟨true, "xyz", some "h"⟩ (some ⟨some "abc", some "h"⟩) =
        JobState.STATE_EXPIRED) :=
  decide_input_changed_rebuilds ⟨true, "xyz", some "h"⟩ ⟨some "abc", some "h"⟩ (by decide)

/-- Claim C7: after a successful `start_run`, a failure inside
`perform_initial_job_setup` propagates to the top-level `except` of
`odin_run_manifest_job`, which only logs — no `finish_run` of any status is
recorded, so the Run stays `running` when the invocation ends, contradicting
the requirement that every job-level failure still calls
`finish_run(..., "failed")`. -/
theorem manifest_job_setup_failure_leaves_run_running :
    (odin_run_manifest_job ⟨none, none, "sig", false, true, true, "h", "", ""⟩).trace =
      [AuditEvent.startRun "generate_manifest"] ∧
    hasFinishRun
      (odin_run_manifest_job ⟨none, none, "sig", false, true, true, "h", "", ""⟩).trace =
      false := by
  decide

/-- Claim C8, counterexample: a state document storing empty-string signature
values under the current field names loads differently from one storing the
same values under the legacy names, because Python `or` treats the empty
string as falsy: the current-name document normalizes to `None` fields, the
legacy-name document to empty-string fields. -/
theorem from_json_text_empty_value_counterexample :
    ManifestState.from_json_text
        [("initial_signature_hash", ""), ("output_signature_hash", "")] ≠
      ManifestState.from_json_text
        [("init_sig_hex", ""), ("output_sig_hex", "")] := by
  decide

/-- Claim C8, amended: for non-empty signature values — and hex digest
strings are never empty — a state document loads to the same in-memory
record whether the values sit under the current field names or under the
legacy field names, namely to exactly those two values. -/
theorem from_json_text_normalizes_spellings (h g : String)
    (hh : h ≠ "") (hg : g ≠ "") :
    ManifestState.from_json_text
        [("initial_signature_hash", h), ("output_signature_hash", g)] =
      ManifestState.from_json_text [("init_sig_hex", h), ("output_sig_hex", g)] ∧
    ManifestState.from_json_text
        [("initial_signature_hash", h), ("output_signature_hash", g)] =
      ⟨some h, some g⟩ := by
  simp [ManifestState.from_json_text, dictGetStr, pyOrStr, pyTruthyStr, hh, hg]

/-- Witness for `from_json_text_normalizes_spellings` at concrete non-empty
hex values. -/
theorem from_json_text_normalizes_spellings_witness :
    ManifestState.from_json_text
        [("initial_signature_hash", "1a"), ("output_signature_hash", "2b")] =
      ManifestState.from_json_text [("init_sig_hex", "1a"), ("output_sig_hex", "2b")] ∧
    ManifestState.from_json_text
        [("initial_signature_hash", "1a"), ("output_signature_hash", "2b")] =
      ⟨some "1a", some "2b"⟩ :=
  from_json_text_normalizes_spellings "1a" "2b" (by decide) (by decide)

/-- Claim C4, counterexample: an `fsync` failure is a failure before the
final rename, the call fails and the target keeps its previous complete
content — but the temporary file is not deleted: `tmp_path` is assigned only
after the `fsync`, so the `except` block's `if tmp_path is not None` guard
skips the unlink and the `delete=False` `.part` file survives with the full
new text; a write failure likewise leaves it behind with the partial text. -/
theorem atomic_write_text_temp_leak_counterexample :
    (atomic_write_text (some "old") "new" AwFail.fsyncFail).2.2 = false ∧
    (atomic_write_text (some "old") "new" AwFail.fsyncFail).2.1.target = some "old" ∧
    (atomic_write_text (some "old") "new" AwFail.fsyncFail).2.1.temp = some "new" ∧
    (atomic_write_text (some "old") "new" AwFail.fsyncFail).2.1.temp ≠ none ∧
    (atomic_write_text (some "old") "new" (AwFail.writeFail 2)).2.1.temp = some "ne" := by
  decide

/-- The content left at the temporary path when `atomic_write_text` returns:
nothing when no temp file was created (mkdir or creation failure), when the
`os.replace` failure path ran the unlink, or when the rename consumed the
temp name; the partial or full text when a write, flush or fsync failure
skipped the unlink (`tmp_path` still `None`). -/
def awLeakedTemp (text : String) : AwFail → Option String
  | AwFail.writeFail written => some (text.take written)
  | AwFail.fsyncFail => some text
  | _ => none

/-- Claim C4, amended: on every execution of `atomic_write_text`, the final
view has the new complete content at the target exactly when no step failed
and the previous content otherwise; the call succeeds exactly when no step
failed; in every observable view the target holds either the previous
complete content or the new complete content — never a partial write; but
the temporary file is deleted on failure only when the failure is at the
rename itself — a write, flush or fsync failure leaks the `.part` file with
whatever content reached it, because `tmp_path` is still `None` when the
`except` block runs. -/
theorem atomic_write_text_publishes_atomically
    (prev : Option String) (text : String) (f : AwFail) :
    ((atomic_write_text prev text f).2.1.target =
      if f = AwFail.noFail then some text else prev) ∧
    (atomic_write_text prev text f).2.1.temp = awLeakedTemp text f ∧
    (((atomic_write_text prev text f).2.2 = true) ↔ f = AwFail.noFail) ∧
    ((atomic_write_text prev text f).1.all
      (fun s => decide (s.target = prev ∨ s.target = some text))) = true := by
  cases f <;> simp [atomic_write_text, awLeakedTemp]

/-- The status `record_step` finishes its step with, per body outcome. -/
def recordStatus : BodyOutcome → String
  | BodyOutcome.normal rec => pyDictGetD rec "status" "success"
  | BodyOutcome.raised _ => "failed"

/-- The message `record_step` finishes its step with, per body outcome. -/
def recordMessage : BodyOutcome → String
  | BodyOutcome.normal rec => pyDictGetD rec "message" ""
  | BodyOutcome.raised m => m

/-- Did the body raise (in which case `record_step` re-raises)? -/
def isRaised : BodyOutcome → Bool
  | BodyOutcome.normal _ => false
  | BodyOutcome.raised _ => true

/-- Finishing a step whose id occurs nowhere in the table leaves the table
unchanged. -/
theorem finish_step_untouched (steps : List StepRow) (ref : StepRef) (st m : String)
    (hfresh : steps.all (fun r => r.id != ref.id) = true) :
    Tracker.finish_step steps ref st m = steps := by
  induction steps with
  | nil => rfl
  | cons a l ih =>
    simp only [List.all_cons, Bool.and_eq_true, bne_iff_ne, ne_eq] at hfresh
    simp only [Tracker.finish_step, List.map_cons] at ih ⊢
    rw [if_neg (by simp [hfresh.1])]
    have := ih (by simpa using hfresh.2)
    simpa using this

/-- Finishing the step just appended updates exactly that row. -/
theorem finish_step_append (steps : List StepRow) (row : StepRow) (st m : String)
    (hfresh : steps.all (fun r => r.id != row.id) = true) :
    Tracker.finish_step (steps ++ [row]) ⟨row.id, row.run_id, row.name⟩ st m =
      steps ++ [{ row with status := st, message := m }] := by
  have huntouched := finish_step_untouched steps ⟨row.id, row.run_id, row.name⟩ st m hfresh
  simp only [Tracker.finish_step, List.map_append, List.map_cons, List.map_nil] at huntouched ⊢
  rw [huntouched]
  simp

/-- Claim C5: a body run under `record_step` always leaves the steps table
extended by exactly one finished row for the started step — on normal return
with the status from the caller-settable slot (default `success`) and the
message from that slot (default empty), on an exception with status `failed`
and message the error text, the exception being re-raised — so an unhandled
exception in the body never leaves the new step in `running` status. -/
theorem record_step_finishes_on_every_exit (steps : List StepRow)
    (run_id name : String) (b : BodyOutcome)
    (hfresh : steps.all (fun r => r.id != steps.length + 1) = true) :
    (Tracker.record_step steps run_id name b).fst =
      steps ++ [⟨steps.length + 1, run_id, name, recordStatus b, recordMessage b⟩] ∧
    (Tracker.record_step steps run_id name b).snd = isRaised b ∧
    (∀ m, b = BodyOutcome.raised m → recordStatus b = "failed" ∧ recordStatus b ≠ "running") := by
  cases b with
  | normal rec =>
    refine ⟨?_, by simp [Tracker.record_step, Tracker.start_step, isRaised], by simp⟩
    simp only [Tracker.record_step, Tracker.start_step, recordStatus, recordMessage]
    exact finish_step_append steps ⟨steps.length + 1, run_id, name, "running", ""⟩ _ _ hfresh
  | raised m =>
    refine ⟨?_, by simp [Tracker.record_step, Tracker.start_step, isRaised],
      by simp [recordStatus]⟩
    simp only [Tracker.record_step, Tracker.start_step, recordStatus, recordMessage]
    exact finish_step_append steps ⟨steps.length + 1, run_id, name, "running", ""⟩ _ _ hfresh

/-- Witness for `record_step_finishes_on_every_exit`: an empty table and a
body that raises with message `boom`. -/
theorem record_step_finishes_on_every_exit_witness :
    (Tracker.record_step [] "r" "gen" (BodyOutcome.raised "boom")).fst =
      [⟨1, "r", "gen", "failed", "boom"⟩] ∧
    (Tracker.record_step [] "r" "gen" (BodyOutcome.raised "boom")).snd = true ∧
    (∀ m, BodyOutcome.raised "boom" = BodyOutcome.raised m →
      recordStatus (BodyOutcome.raised "boom") = "failed" ∧
      recordStatus (BodyOutcome.raised "boom") ≠ "running") :=
  record_step_finishes_on_every_exit [] "r" "gen" (BodyOutcome.raised "boom") (by decide)

/-- Claim C6, counterexample: with the `run_once` guard not yet tripped and a
run row for `r1` already present in the audit store, `start_run` neither
fails with any `AlreadyStarted`-style error nor preserves the old row — the
`INSERT OR REPLACE` silently replaces it with a fresh `running` row. -/
theorem start_run_replaces_existing_counterexample :
    Tracker.start_run ⟨false, false, [("db", [⟨"r1", "old", "success"⟩])]⟩ "db" "r1" "new" =
      Except.ok ⟨true, false, [("db", [⟨"r1", "new", "running"⟩])]⟩ := by
  rfl

/-- Lookup after `INSERT OR REPLACE` finds exactly the new row. -/
theorem findRun_insertOrReplace (runs : List RunRow) (row : RunRow) :
    findRun (insertOrReplaceRun runs row) row.run_id = some row := by
  induction runs with
  | nil => simp [findRun, insertOrReplaceRun]
  | cons a l ih =>
    simp only [insertOrReplaceRun, List.filter_cons] at ih ⊢
    cases h : (a.run_id == row.run_id) with
    | true => simp only [h, Bool.not_true, if_neg, ite_false]; exact ih
    | false =>
      simp only [h, Bool.not_false, if_pos, List.cons_append]
      simp only [findRun, List.find?_cons, h] at ih ⊢
      exact ih

/-- Reading back the table just written by `setDbRuns`. -/
theorem dbRuns_mk (s f : Bool) (dbs : List (String × List RunRow)) (db_path : String)
    (runs : List RunRow) :
    dbRuns ⟨s, f, setDbRuns dbs db_path runs⟩ db_path = runs := by
  simp [dbRuns, setDbRuns]

/-- Claim C6, amended: `start_run` raises `AlreadyCalledError` exactly when
the process-wide `run_once` guard has already been tripped (whatever the
`run_id`); otherwise it succeeds unconditionally, writing — with
`INSERT OR REPLACE`, so silently replacing any existing row with the same
`run_id` — a row with status `running` for the requested run. -/
theorem start_run_inserts_or_replaces (p : AuditProcess) (db_path run_id run_name : String) :
    (p.start_run_called = true →
      Tracker.start_run p db_path run_id run_name = Except.error AuditError.alreadyCalled) ∧
    (p.start_run_called = false →
      ∀ p2, Tracker.start_run p db_path run_id run_name = Except.ok p2 →
        findRun (dbRuns p2 db_path) run_id = some ⟨run_id, run_name, "running"⟩) := by
  constructor
  · intro h
    simp [Tracker.start_run, h]
  · intro h p2 hok
    obtain ⟨ps, pf, pdbs⟩ := p
    simp only at h
    subst h
    simp only [Tracker.start_run, Bool.false_eq_true, if_neg, ite_false,
      Except.ok.injEq] at hok
    subst hok
    rw [dbRuns_mk]
    exact findRun_insertOrReplace _ ⟨run_id, run_name, "running"⟩

/-- Witness for `start_run_inserts_or_replaces`: both branches at concrete
inputs — a tripped guard errors, an untripped guard writes the running row
over an existing row with the same id. -/
theorem start_run_inserts_or_replaces_witness :
    Tracker.start_run ⟨true, false, []⟩ "db" "r9" "n9" =
      Except.error AuditError.alreadyCalled ∧
    findRun
      (dbRuns ⟨true, false, [("db", [⟨"r9", "n9", "running"⟩])]⟩ "db") "r9" =
      some ⟨"r9", "n9", "running"⟩ :=
  ⟨(start_run_inserts_or_replaces ⟨true, false, []⟩ "db" "r9" "n9").1 (by decide),
   (start_run_inserts_or_replaces ⟨false, false, [("db", [⟨"r9", "old", "success"⟩])]⟩
      "db" "r9" "n9").2 (by decide)
     ⟨true, false, [("db", [⟨"r9", "n9", "running"⟩])]⟩ rfl⟩

/-- One invocation attempt of `Tracker.start_run` per list element (database
path, run id, run name), threading the process state; counts how many
complete successfully. -/
def countStartSuccesses (p : AuditProcess) : List (String × String × String) → Nat
  | [] => 0
  | c :: rest =>
    match Tracker.start_run p c.fst c.snd.fst c.snd.snd with
    | Except.ok p2 => 1 + countStartSuccesses p2 rest
    | Except.error _ => countStartSuccesses p rest

/-- The same call-sequence model for `Tracker.finish_run` (database path,
run id, status). -/
def countFinishSuccesses (p : AuditProcess) : List (String × String × String) → Nat
  | [] => 0
  | c :: rest =>
    match Tracker.finish_run p c.fst c.snd.fst c.snd.snd with
    | Except.ok p2 => 1 + countFinishSuccesses p2 rest
    | Except.error _ => countFinishSuccesses p rest

/-- Once the start guard is tripped, no `start_run` call ever succeeds. -/
theorem countStartSuccesses_tripped (p : AuditProcess)
    (h : p.start_run_called = true) (calls : List (String × String × String)) :
    countStartSuccesses p calls = 0 := by
  induction calls with
  | nil => rfl
  | cons c rest ih => simp [countStartSuccesses, Tracker.start_run, h, ih]

/-- Once the finish guard is tripped, no `finish_run` call ever succeeds. -/
theorem countFinishSuccesses_tripped (p : AuditProcess)
    (h : p.finish_run_called = true) (calls : List (String × String × String)) :
    countFinishSuccesses p calls = 0 := by
  induction calls with
  | nil => rfl
  | cons c rest ih => simp [countFinishSuccesses, Tracker.finish_run, h, ih]

/-- Claim C10: after one successful `start_run`, every further `start_run`
call in the process — any run id, any database path, hence any `Tracker`
instance — raises `AlreadyCalledError` without producing a new process state
(the guard fires before the database is opened); any sequence of `start_run`
calls therefore contains at most one success; and `finish_run` carries its
own independent class-level guard with the same behavior. -/
theorem run_once_class_level_guard (p p2 : AuditProcess) (db rid nm : String)
    (hok : Tracker.start_run p db rid nm = Except.ok p2) :
    (∀ db2 rid2 nm2, Tracker.start_run p2 db2 rid2 nm2 =
      Except.error AuditError.alreadyCalled) ∧
    (∀ calls, countStartSuccesses p calls ≤ 1) ∧
    (∀ db2 rid2 st2 p3, Tracker.finish_run p2 db2 rid2 st2 = Except.ok p3 →
      ∀ db3 rid3 st3, Tracker.finish_run p3 db3 rid3 st3 =
        Except.error AuditError.alreadyCalled) := by
  by_cases h : p.start_run_called = true
  · simp [Tracker.start_run, h] at hok
  · have h2 : p.start_run_called = false := by simpa using h
    simp only [Tracker.start_run, h2, Bool.false_eq_true, if_neg, ite_false,
      Except.ok.injEq] at hok
    subst hok
    refine ⟨fun db2 rid2 nm2 => by simp [Tracker.start_run], ?_, ?_⟩
    · intro calls
      cases calls with
      | nil => simp [countStartSuccesses]
      | cons c rest =>
        simp only [countStartSuccesses, Tracker.start_run, h2, Bool.false_eq_true,
          if_neg, ite_false]
        rw [countStartSuccesses_tripped _ rfl rest]
    · intro db2 rid2 st2 p3 hfin
      by_cases hf : p.finish_run_called = true
      · simp [Tracker.finish_run, hf] at hfin
      · have hf2 : p.finish_run_called = false := by simpa using hf
        simp only [Tracker.finish_run, hf2, Bool.false_eq_true, if_neg, ite_false,
          Except.ok.injEq] at hfin
        subst hfin
        intro db3 rid3 st3
        simp [Tracker.finish_run]

/-- Witness for `run_once_class_level_guard`: a fresh process starts run `r1`
through one tracker, and a second `start_run` through a different database
path and run id still raises. -/
theorem run_once_class_level_guard_witness :
    Tracker.start_run ⟨true, false, [("db", [⟨"r1", "n", "running"⟩])]⟩ "db2" "r2" "n2" =
      Except.error AuditError.alreadyCalled :=
  (run_once_class_level_guard ⟨false, false, []⟩
      ⟨true, false, [("db", [⟨"r1", "n", "running"⟩])]⟩ "db" "r1" "n" rfl).1
    "db2" "r2" "n2"

/-- Claim C2, counterexample: a first invocation on a fresh world (no state
file, no manifest) rebuilds and writes state and manifest; a second
invocation against exactly those outputs with an unchanged input signature
decides `STILL_CURRENT_SHOULD_SKIP` and performs no rebuild step — but the
run is finished with terminal status `success`, and no `finish_run` with
status `skipped` appears in its trace. -/
theorem second_invocation_status_counterexample :
    (odin_run_manifest_job ⟨none, none, "sig1", true, true, true, "h1", "", ""⟩).state_file =
      some ⟨some "sig1", some "h1"⟩ ∧
    (odin_run_manifest_job ⟨none, none, "sig1", true, true, true, "h1", "", ""⟩).manifest_hash =
      some "h1" ∧
    (odin_run_manifest_job
        ⟨some ⟨some "sig1", some "h1"⟩, some "h1", "sig1", true, true, true, "h2", "", ""⟩).decision =
      some JobState.STILL_CURRENT_SHOULD_SKIP ∧
    hasStartStep
      (odin_run_manifest_job
        ⟨some ⟨some "sig1", some "h1"⟩, some "h1", "sig1", true, true, true, "h2", "", ""⟩).trace =
      false ∧
    (odin_run_manifest_job
        ⟨some ⟨some "sig1", some "h1"⟩, some "h1", "sig1", true, true, true, "h2", "", ""⟩).trace =
      [AuditEvent.startRun "generate_manifest", AuditEvent.finishRun "success"] ∧
    AuditEvent.finishRun "skipped" ∉
      (odin_run_manifest_job
        ⟨some ⟨some "sig1", some "h1"⟩, some "h1", "sig1", true, true, true, "h2", "", ""⟩).trace := by
  decide

/-- Claim C2, amended: given the state record and manifest produced by a
prior successful rebuild and no filesystem changes since, a second invocation
decides `STILL_CURRENT_SHOULD_SKIP`, starts no rebuild step, and its run is
finished with terminal status `success` (not `skipped`). -/
theorem second_invocation_skips_with_success_status (w1 w2 : JobWorld)
    (h1state : w1.state_file = none)
    (h1setup : w1.setup_ok = true) (h1gen : w1.gen_ok = true)
    (h1write : w1.state_write_ok = true)
    (h2state : w2.state_file = (odin_run_manifest_job w1).state_file)
    (h2man : w2.manifest_hash = (odin_run_manifest_job w1).manifest_hash)
    (h2sig : w2.input_sig_hash = w1.input_sig_hash)
    (h2setup : w2.setup_ok = true) :
    (odin_run_manifest_job w2).decision = some JobState.STILL_CURRENT_SHOULD_SKIP ∧
    hasStartStep (odin_run_manifest_job w2).trace = false ∧
    (odin_run_manifest_job w2).trace =
      [AuditEvent.startRun "generate_manifest", AuditEvent.finishRun "success"] := by
  have hrun1 :
      (odin_run_manifest_job w1).state_file =
        some ⟨some w1.input_sig_hash, some w1.new_manifest_hash⟩ ∧
      (odin_run_manifest_job w1).manifest_hash = some w1.new_manifest_hash := by
    simp [odin_run_manifest_job, write_manifest_and_state, decide_job_state,
      h1state, h1setup, h1gen, h1write]
  rw [hrun1.1] at h2state
  rw [hrun1.2] at h2man
  simp [odin_run_manifest_job, decide_job_state, pyEqOptStr, hasFinishRun, hasStartStep,
    h2setup, h2state, h2man, h2sig]

/-- Witness for `second_invocation_skips_with_success_status` at the concrete
pair of worlds of the first-build / second-run scenario. -/
theorem second_invocation_skips_with_success_status_witness :
    (odin_run_manifest_job
        ⟨some ⟨some "s1", some "m1"⟩, some "m1", "s1", true, true, true, "m2", "", ""⟩).decision =
      some JobState.STILL_CURRENT_SHOULD_SKIP ∧
    hasStartStep
      (odin_run_manifest_job
        ⟨some ⟨some "s1", some "m1"⟩, some "m1", "s1", true, true, true, "m2", "", ""⟩).trace =
      false ∧
    (odin_run_manifest_job
        ⟨some ⟨some "s1", some "m1"⟩, some "m1", "s1", true, true, true, "m2", "", ""⟩).trace =
      [AuditEvent.startRun "generate_manifest", AuditEvent.finishRun "success"] :=
  second_invocation_skips_with_success_status
    ⟨none, none, "s1", true, true, true, "m1", "", ""⟩
    ⟨some ⟨some "s1", some "m1"⟩, some "m1", "s1", true, true, true, "m2", "", ""⟩
    rfl rfl rfl rfl (by decide) (by decide) rfl rfl

set_option maxRecDepth 8192 in
set_option maxHeartbeats 1000000 in
/-- Claim C3, counterexample: for the signature of a tree with one 3-byte
file (count 1, latest mtime 2 ns, total 3 bytes) under root `r` with no
exclusions, the hash the job actually stores and compares —
`digest(asdict(qsig))` computed in `perform_initial_job_setup` — differs from
SHA-256 over the canonical JSON of only `{file_count, latest_mtime_ns,
total_bytes}`, and so does the `hash_quick_manifest_scan` variant: the hashed
document is not limited to the three structural facts. -/
theorem quick_signature_hash_three_fields_counterexample :
    initial_signature_hash_of ⟨"r", [], 1, 2, 3⟩ ≠
      spec_quick_signature_hash ⟨"r", [], 1, 2, 3⟩ ∧
    hash_quick_manifest_scan ⟨"r", [], 1, 2, 3⟩ ≠
      spec_quick_signature_hash ⟨"r", [], 1, 2, 3⟩ := by
  constructor <;> decide

/-- Claim C3, amended: the input-signature hash computed by
`perform_initial_job_setup` is SHA-256 over the canonical JSON encoding
(keys sorted, no whitespace) of the full five-field `asdict` of the quick
signature — `exclude` and `root` enter the hashed document alongside
`file_count`, `latest_mtime_ns` and `total_bytes`. -/
theorem initial_signature_hash_five_fields (q : QuickManifestSig) :
    initial_signature_hash_of q =
      sha256_string
        (String.mk
          (Char.ofNat 123 ::
            ((jsonDumpString "exclude" ++ ':' :: dumpsFlat (PyFlat.strList q.exclude)) ++
             ',' :: ((jsonDumpString "file_count" ++
                      ':' :: dumpsFlat (PyFlat.num q.file_count)) ++
             ',' :: ((jsonDumpString "latest_mtime_ns" ++
                      ':' :: dumpsFlat (PyFlat.num q.latest_mtime_ns)) ++
             ',' :: ((jsonDumpString "root" ++ ':' :: dumpsFlat (PyFlat.str q.root)) ++
             ',' :: (jsonDumpString "total_bytes" ++
                     ':' :: dumpsFlat (PyFlat.num q.total_bytes)))))) ++
            [Char.ofNat 125])) := by
  have hs : dumpsCanonical (asdictQuickManifestSig q) =
      String.mk
        (Char.ofNat 123 ::
          ((jsonDumpString "exclude" ++ ':' :: dumpsFlat (PyFlat.strList q.exclude)) ++
           ',' :: ((jsonDumpString "file_count" ++
                    ':' :: dumpsFlat (PyFlat.num q.file_count)) ++
           ',' :: ((jsonDumpString "latest_mtime_ns" ++
                    ':' :: dumpsFlat (PyFlat.num q.latest_mtime_ns)) ++
           ',' :: ((jsonDumpString "root" ++ ':' :: dumpsFlat (PyFlat.str q.root)) ++
           ',' :: (jsonDumpString "total_bytes" ++
                   ':' :: dumpsFlat (PyFlat.num q.total_bytes)))))) ++
          [Char.ofNat 125]) := rfl
  show sha256HexOfBytes (utf8Encode (dumpsCanonical (asdictQuickManifestSig q))) = _
  rw [hs]
  rfl

/-- Claim C9, counterexample: scanning an unreadable root that contains a
readable non-empty file raises nothing and returns the empty signature
(count 0, mtime 0, bytes 0) — `os.walk`'s default `onerror=None` swallows the
failed `scandir`, so an unreadable root is not fatal and no `IOError`
escapes. -/
theorem quick_scan_unreadable_root_counterexample :
    quick_scan_signature "repo" (FSNode.dir false [("a", FSNode.file true 5 7)]) [] =
      ⟨"repo", [], 0, 0, 0⟩ := by
  rfl

/-- The filename loop distributes over list append. -/
theorem scanFiles_append (ex rel : List String) (agg : QuickScanAgg)
    (l1 l2 : List (String × FSNode)) :
    scanFiles ex rel agg (l1 ++ l2) = scanFiles ex rel (scanFiles ex rel agg l1) l2 := by
  induction l1 generalizing agg with
  | nil => simp [scanFiles]
  | cons a rest ih =>
    obtain ⟨n, nd⟩ := a
    cases nd with
    | file ok size mtime => simp [scanFiles, ih]
    | dir r es => simp [scanFiles, ih]

/-- The subdirectory descent distributes over list append. -/
theorem scanDirs_append (ex rel : List String) (agg : QuickScanAgg)
    (l1 l2 : List (String × FSNode)) :
    scanDirs ex rel agg (l1 ++ l2) = scanDirs ex rel (scanDirs ex rel agg l1) l2 := by
  induction l1 generalizing agg with
  | nil => simp [scanDirs]
  | cons a rest ih =>
    obtain ⟨n, nd⟩ := a
    cases nd with
    | file ok size mtime => simp [scanDirs, ih]
    | dir r es => simp [scanDirs, ih]

/-- A file whose `exists()` check fails contributes nothing to the filename
loop. -/
theorem scanFiles_skip_inaccessible (ex rel : List String) (agg : QuickScanAgg)
    (fn : String) (sz mt : Nat) (post : List (String × FSNode)) :
    scanFiles ex rel agg ((fn, FSNode.file false sz mt) :: post) =
      scanFiles ex rel agg post := by
  simp [scanFiles]

/-- File entries are not directories, so the descent loop passes over them. -/
theorem scanDirs_skip_file (ex rel : List String) (agg : QuickScanAgg)
    (fn : String) (ok : Bool) (sz mt : Nat) (post : List (String × FSNode)) :
    scanDirs ex rel agg ((fn, FSNode.file ok sz mt) :: post) =
      scanDirs ex rel agg post := by
  simp [scanDirs]

/-- Claim C9, amended: an error on an individual file (a broken symlink or a
permission fault that makes `p.exists()` report false) is skipped — the
signature equals that of the same tree without the file — while an unreadable
root is not fatal either: instead of raising `IOError`, the walk yields
nothing and the signature comes back with zero aggregates. -/
theorem quick_scan_error_handling (ex rel : List String) (agg : QuickScanAgg)
    (pre post : List (String × FSNode)) (fn rootName : String) (sz mt : Nat)
    (entries : List (String × FSNode)) :
    scanDirEntries ex rel agg (pre ++ (fn, FSNode.file false sz mt) :: post) =
      scanDirEntries ex rel agg (pre ++ post) ∧
    quick_scan_signature rootName
        (FSNode.dir true (pre ++ (fn, FSNode.file false sz mt) :: post)) ex =
      quick_scan_signature rootName (FSNode.dir true (pre ++ post)) ex ∧
    quick_scan_signature rootName (FSNode.dir false entries) ex =
      ⟨rootName, ex, 0, 0, 0⟩ := by
  have hd : ∀ (agg2 : QuickScanAgg),
      scanDirEntries ex rel agg2 (pre ++ (fn, FSNode.file false sz mt) :: post) =
        scanDirEntries ex rel agg2 (pre ++ post) := by
    intro agg2
    simp [scanDirEntries, scanFiles_append, scanDirs_append,
      scanFiles_skip_inaccessible, scanDirs_skip_file]
  have hroot : ∀ (agg2 : QuickScanAgg),
      scanDirEntries ex [] agg2 (pre ++ (fn, FSNode.file false sz mt) :: post) =
        scanDirEntries ex [] agg2 (pre ++ post) := by
    intro agg2
    simp [scanDirEntries, scanFiles_append, scanDirs_append,
      scanFiles_skip_inaccessible, scanDirs_skip_file]
  refine ⟨hd agg, ?_, rfl⟩
  simp [quick_scan_signature, hroot]
